import Mathlib

/-!
Verification development for the dg-core rules engine.

The repository ships its ORM models (src/app/models/db_models.py), its bot API
layer (src/app/api/bot.py) and its test suite; the domain modules under
app/domain (session, game, timeline, dispatcher, character, dice) are imported
by that code but their files are not present. Definitions for those modules are
therefore modelled from the specification, with every point on which the
repository's own tests pin concrete behaviour (src/tests/test_session_enhanced.py,
src/tests/test_api.py, src/tests/test_e2e.py) modelled to match the tests.
Entity ids are embedded as naturals; timestamps, free-text and JSON blobs that
no claim depends on are omitted.
-/

namespace DgCore

/-- Status of a Session row, from the `session_status` enum in
src/app/models/db_models.py (active / paused / ended). -/
inductive SessionStatus where
  | active
  | paused
  | ended
deriving DecidableEq, Repr

/-- Status of a Game row, from the `game_status` enum in
src/app/models/db_models.py (preparing / active / paused / ended). -/
inductive GameStatus where
  | preparing
  | active
  | paused
  | ended
deriving DecidableEq, Repr

/-- Domain error taxonomy of spec section 7: NotFound, Conflict (scope
collision, duplicate roster entry), InvalidTransition (illegal lifecycle
move), AlreadyExists (duplicate roster entry raised by add_player_to_session). -/
inductive DomainError where
  | notFound
  | conflict
  | invalidTransition
  | alreadyExists
deriving DecidableEq, Repr

/-- Soul color, the single-letter C/M/Y/K tag on Patient.soul_color in
src/app/models/db_models.py. -/
inductive SoulColor where
  | C
  | M
  | Y
  | K
deriving DecidableEq, Repr

/-- A Session row: id, owning game, optional region / location scope and
status, from the `sessions` table in src/app/models/db_models.py. -/
structure Sess where
  id : Nat
  game_id : Nat
  region_id : Option Nat
  location_id : Option Nat
  status : SessionStatus
deriving DecidableEq, Repr

/-- The position-bearing part of a Patient row: id, owning game and the
nullable current_region_id / current_location_id columns of the `patients`
table in src/app/models/db_models.py. -/
structure PatientRec where
  id : Nat
  game_id : Nat
  current_region_id : Option Nat
  current_location_id : Option Nat
deriving DecidableEq, Repr

/-- A SessionPlayer join row (session, patient), from the `session_players`
table in src/app/models/db_models.py. -/
structure SessionPlayerRec where
  session_id : Nat
  patient_id : Nat
deriving DecidableEq, Repr

/-- The state the session manager operates on: the sessions table, the
patients table and the session_players roster, plus the id counter used for
new sessions. -/
structure SMState where
  sessions : List Sess
  patients : List PatientRec
  session_players : List SessionPlayerRec
  next_id : Nat
deriving DecidableEq, Repr

/-- Modelled from the spec: app/domain/session.py is absent from src/. Scope
overlap of an existing session `s` with a requested scope, spec section 4.2:
a location-scoped request conflicts with a session at the same location or
with a region-wide session on its region; a region-scoped request conflicts
with any session (location- or region-scoped) in that region; a game-wide
request is independent. -/
def scopeOverlaps (s : Sess) (region_id location_id : Option Nat) : Bool :=
  match location_id, region_id with
  | some l, some r =>
      s.location_id == some l || (s.location_id == none && s.region_id == some r)
  | some l, none => s.location_id == some l
  | none, some r => s.region_id == some r
  | none, none => false

/-- Modelled from the spec: app/domain/session.py is absent from src/. A
session holds its scope against a request only while it is `active`: the spec
text of section 4.2 says a paused session still holds its scope, but the
repository's own tests pin the opposite — in
src/tests/test_session_enhanced.py, test_resume_blocked_when_another_active_at_same_location
starts a second session at a location whose only occupant is paused and
expects it to succeed, and every expected conflict message reads
"active session already exists ..." — so only `active` sessions conflict. -/
def conflictsWith (s : Sess) (region_id location_id : Option Nat) : Bool :=
  s.status == SessionStatus.active && scopeOverlaps s region_id location_id

/-- Modelled from the spec: app/domain/session.py is absent from src/. The
conflict predicate of start_session / resume_session over the sessions table. -/
def conflictExists (st : SMState) (region_id location_id : Option Nat) : Bool :=
  st.sessions.any (fun s => conflictsWith s region_id location_id)

/-- Modelled from the spec: app/domain/session.py is absent from src/.
Auto-enrol test of spec section 4.2: a patient joins a new location-scoped
session when positioned at that location, and a new region-scoped session
when positioned at that region. -/
def autoJoins (p : PatientRec) (region_id location_id : Option Nat) : Bool :=
  match location_id, region_id with
  | some l, _ => p.current_location_id == some l
  | none, some r => p.current_region_id == some r
  | none, none => false

/-- Modelled from the spec: app/domain/session.py is absent from src/.
start_session (spec section 4.2): fails with Conflict when the conflict
predicate holds; otherwise creates the session in `active` status and
auto-enrols every patient positioned at the session's scope. -/
def startSession (st : SMState) (gid : Nat) (region_id location_id : Option Nat) :
    Except DomainError SMState :=
  if conflictExists st region_id location_id then
    .error DomainError.conflict
  else
    .ok { sessions := st.sessions ++
            [⟨st.next_id, gid, region_id, location_id, SessionStatus.active⟩],
          patients := st.patients,
          session_players := st.session_players ++
            (st.patients.filter (fun p => autoJoins p region_id location_id)).map
              (fun p => ⟨st.next_id, p.id⟩),
          next_id := st.next_id + 1 }

/-- Helper: set the status of the session with the given id. -/
def setStatus (st : SMState) (sid : Nat) (stat : SessionStatus) : SMState :=
  { st with sessions := st.sessions.map
              (fun t => if t.id == sid then { t with status := stat } else t) }

/-- Helper: look up a session by id. -/
def findSession (st : SMState) (sid : Nat) : Option Sess :=
  st.sessions.find? (fun s => s.id == sid)

/-- Modelled from the spec: app/domain/session.py is absent from src/.
pause_session (spec section 4.2): legal only from `active`, InvalidTransition
otherwise (test_pause_non_active_session_fails expects "Cannot pause"). -/
def pauseSession (st : SMState) (sid : Nat) : Except DomainError SMState :=
  match findSession st sid with
  | none => .error DomainError.notFound
  | some s =>
      if s.status == SessionStatus.active then
        .ok (setStatus st sid SessionStatus.paused)
      else
        .error DomainError.invalidTransition

/-- Modelled from the spec: app/domain/session.py is absent from src/.
resume_session (spec section 4.2): legal only from `paused`; re-checks the
same conflict predicate as start_session before transitioning
(test_resume_blocked_when_another_active_at_same_location expects
"active session already exists"). -/
def resumeSession (st : SMState) (sid : Nat) : Except DomainError SMState :=
  match findSession st sid with
  | none => .error DomainError.notFound
  | some s =>
      if s.status == SessionStatus.paused then
        if conflictExists st s.region_id s.location_id then
          .error DomainError.conflict
        else
          .ok (setStatus st sid SessionStatus.active)
      else
        .error DomainError.invalidTransition

/-- Modelled from the spec: app/domain/session.py is absent from src/.
end_session (spec section 4.2): legal from `active` or `paused`; releases the
scope by moving the session to `ended`. -/
def endSession (st : SMState) (sid : Nat) : Except DomainError SMState :=
  match findSession st sid with
  | none => .error DomainError.notFound
  | some s =>
      if s.status == SessionStatus.ended then
        .error DomainError.invalidTransition
      else
        .ok (setStatus st sid SessionStatus.ended)

/-- A Game row reduced to the fields the lifecycle operations read: id and
status, from the `games` table in src/app/models/db_models.py. -/
structure GameRec where
  id : Nat
  status : GameStatus
deriving DecidableEq, Repr

/-- Modelled from the spec: app/domain/game.py is absent from src/.
start_game (spec section 4.1): preparing to active only, InvalidTransition
otherwise. -/
def startGame (g : GameRec) : Except DomainError GameRec :=
  if g.status == GameStatus.preparing then
    .ok { g with status := GameStatus.active }
  else
    .error DomainError.invalidTransition

/-- Modelled from the spec: app/domain/game.py is absent from src/.
end_game (spec section 4.1): any non-ended status to ended; repeating it on
an ended game fails (spec section 8). -/
def endGame (g : GameRec) : Except DomainError GameRec :=
  if g.status == GameStatus.ended then
    .error DomainError.invalidTransition
  else
    .ok { g with status := GameStatus.ended }

/-- The SWAP-file disclosure returned by patient creation: the patient's own
soul color and the revealed part of the per-color archive map
(src/tests/test_api.py asserts on swap_file.soul_color and
swap_file.revealed_archive). -/
structure SwapFile where
  soul_color : SoulColor
  revealed_archive : SoulColor → Option String

/-- The character fields of a stored Patient that patient creation writes:
soul color and the full per-color personality-archive map
(Patient.soul_color and Patient.personality_archives_json in
src/app/models/db_models.py). -/
structure PatientChar where
  soul_color : SoulColor
  personality_archives : SoulColor → Option String

/-- Result of patient creation: the stored patient plus the SWAP disclosure. -/
structure CreatePatientResult where
  patient : PatientChar
  swap_file : SwapFile

/-- Modelled from the spec: the character-subsystem module is absent from
src/. Patient creation (spec section 4.3) persists the full per-color archive
map but the returned SWAP file reveals only the entry matching the patient's
own soul color; all other colors are withheld. -/
def createPatient (c : SoulColor) (archives : SoulColor → Option String) :
    CreatePatientResult :=
  { patient := { soul_color := c, personality_archives := archives },
    swap_file :=
      { soul_color := c,
        revealed_archive := fun col => if col = c then archives col else none } }

/-- The attribute fields of a Ghost that ghost creation initialises: the CMYK
vector and HP/MP with maxima (Ghost.cmyk_json, hp, hp_max, mp, mp_max in
src/app/models/db_models.py; the column defaults there are hp = hp_max = 10
and mp = mp_max = 5). -/
structure GhostChar where
  soul_color : SoulColor
  cmyk : SoulColor → Nat
  hp : Nat
  hp_max : Nat
  mp : Nat
  mp_max : Nat

/-- Modelled from the spec: the character-subsystem module is absent from
src/. The CMYK vector initialised from a declared soul color: the matching
channel is 1, the others 0 (spec section 4.3). -/
def defaultCmyk (c : SoulColor) : SoulColor → Nat :=
  fun col => if col = c then 1 else 0

/-- Modelled from the spec: the character-subsystem module is absent from
src/. Ghost creation (spec section 4.3): the CMYK vector comes from the
declared soul color unless explicitly overridden, and HP/MP start at the
caller-declared maxima, defaulting both members of each current/max pair to
the column defaults (10 for HP, 5 for MP) when none is declared. -/
def createGhost (c : SoulColor) (cmyk_override : Option (SoulColor → Nat))
    (declared_hp_max : Option Nat) (declared_mp_max : Option Nat) : GhostChar :=
  let hm := declared_hp_max.getD 10
  let mm := declared_mp_max.getD 5
  { soul_color := c,
    cmyk := cmyk_override.getD (defaultCmyk c),
    hp := hm,
    hp_max := hm,
    mp := mm,
    mp_max := mm }

/-- Result of a dice roll: the ordered individual die results and the summed
total (spec section 4.4). -/
structure DiceResult where
  rolls : List Nat
  total : Nat
deriving DecidableEq, Repr

/-- Modelled from the spec: the dice-resolver module is absent from src/.
Rolling an expression NdM+K against an injectable random source: the i-th die
is drawn from the source and reduced to a face in 1..M; the total is the sum
of the ordered die results plus the flat modifier K (spec section 4.4). -/
def rollDice (rng : Nat → Nat) (n m k : Nat) : DiceResult :=
  let rolls := (List.range n).map (fun i => rng i % m + 1)
  { rolls := rolls, total := rolls.sum + k }

/-- Modelled from the spec: the dice-resolver module is absent from src/.
Check success is determined by total >= difficulty; ties succeed (spec
section 4.4). -/
def checkSuccess (total difficulty : Nat) : Bool :=
  decide (difficulty ≤ total)

/-- The game configuration field the skill_check handler reads: the die size
(the e2e test configures dice_type 6 in src/tests/test_e2e.py). -/
structure GameConfig where
  dice_type : Nat
deriving DecidableEq, Repr

/-- The skill_check handler's result payload: roll_total and check_success in
data plus the raw rolls (asserted in src/tests/test_e2e.py). -/
structure SkillCheckResult where
  roll_total : Nat
  check_success : Bool
  rolls : List Nat
deriving DecidableEq, Repr

/-- Modelled from the spec: the dispatcher module is absent from src/. The
skill_check handler (spec section 4.5) rolls dice per game config — by
default one die of the configured size, no modifier — compares against the
supplied difficulty and returns roll_total and check_success plus the raw
rolls. -/
def skillCheck (rng : Nat → Nat) (cfg : GameConfig) (difficulty : Nat) :
    SkillCheckResult :=
  let dr := rollDice rng 1 cfg.dice_type 0
  { roll_total := dr.total,
    check_success := checkSuccess dr.total difficulty,
    rolls := dr.rolls }

/-- A TimelineEvent row reduced to the fields the sequencing logic touches:
owning session and game, event type and the per-session sequence number
(the `timeline_events` table in src/app/models/db_models.py). -/
structure TEvent where
  session_id : Nat
  game_id : Nat
  event_type : String
  seq : Nat
deriving DecidableEq, Repr

/-- Sequence numbers recorded for one session, in ledger (append) order. -/
def sessionSeqs (tl : List TEvent) (sid : Nat) : List Nat :=
  (tl.filter (fun e => e.session_id == sid)).map (fun e => e.seq)

/-- Modelled from the spec: the timeline module is absent from src/. The
maximum existing sequence number for a session (0 when the session has no
events yet). -/
def maxSeq (tl : List TEvent) (sid : Nat) : Nat :=
  (sessionSeqs tl sid).foldr max 0

/-- Modelled from the spec: the timeline module is absent from src/.
Appending a dispatched event to the ledger assigns the new TimelineEvent the
sequence number (max existing seq for that session) + 1 (spec section 4.5,
step 4). -/
def appendEvent (tl : List TEvent) (sid gid : Nat) (ty : String) : List TEvent :=
  tl ++ [{ session_id := sid, game_id := gid, event_type := ty,
           seq := maxSeq tl sid + 1 }]

/-- Timeline ledgers reachable from the empty ledger by dispatching events:
every entry was appended through appendEvent. -/
inductive TimelineReachable : List TEvent → Prop where
  | nil : TimelineReachable []
  | append (tl : List TEvent) (sid gid : Nat) (ty : String) :
      TimelineReachable tl → TimelineReachable (appendEvent tl sid gid ty)

/-- Modelled from the spec: the timeline module is absent from src/. The
per-session timeline query: the session's events with limit/offset
pagination, as called by get_session_timeline in src/app/api/bot.py. -/
def getTimeline (events : List TEvent) (sid limit offset : Nat) : List TEvent :=
  ((events.filter (fun e => e.session_id == sid)).drop offset).take limit

/-- Modelled from the spec: the timeline module is absent from src/. The
per-game timeline query: the game's events with limit/offset pagination, as
called by get_game_timeline in src/app/api/bot.py. -/
def getGameTimelineEvents (events : List TEvent) (gid limit offset : Nat) :
    List TEvent :=
  ((events.filter (fun e => e.game_id == gid)).drop offset).take limit

/-- The database state visible to the bot API endpoints: games, sessions and
timeline events. -/
structure BotDB where
  games : List GameRec
  sessions : List Sess
  events : List TEvent
deriving DecidableEq, Repr

/-- Response body of the two timeline endpoints in src/app/api/bot.py: the
echoed subject id (game_id or session_id) and the events list. -/
structure TimelineResponse where
  subject_id : Nat
  events : List TEvent
deriving DecidableEq, Repr

/-- GET /api/bot/sessions/(session_id)/timeline, from get_session_timeline in
src/app/api/bot.py: looks the session up and raises HTTP 404 when it does not
exist, otherwise returns the session's timeline page. The error side carries
the HTTP status code. -/
def getSessionTimelineApi (db : BotDB) (sid limit offset : Nat) :
    Except Nat TimelineResponse :=
  match db.sessions.find? (fun s => s.id == sid) with
  | none => .error 404
  | some _ => .ok { subject_id := sid, events := getTimeline db.events sid limit offset }

/-- GET /api/bot/games/(game_id)/timeline, from get_game_timeline in
src/app/api/bot.py: performs no existence check on the game id and always
returns a successful response with the game's timeline page. -/
def getGameTimelineApi (db : BotDB) (gid limit offset : Nat) :
    Except Nat TimelineResponse :=
  .ok { subject_id := gid, events := getGameTimelineEvents db.events gid limit offset }

/-- C4: patient creation with a per-color archive map and soul color c
returns a disclosure (SWAP file) carrying exactly the archive entry for c —
the entry for c is revealed unchanged and every other color's entry is
withheld — while the stored patient keeps the full archive map. -/
theorem patient_swap_disclosure (c : SoulColor) (archives : SoulColor → Option String) :
    (createPatient c archives).swap_file.soul_color = c ∧
    (createPatient c archives).swap_file.revealed_archive c = archives c ∧
    (∀ c', c' ≠ c → (createPatient c archives).swap_file.revealed_archive c' = none) ∧
    (createPatient c archives).patient.personality_archives = archives := by
  refine ⟨rfl, by simp [createPatient], ?_, rfl⟩
  intro c' h
  simp [createPatient, h]

/-- Archive map used to instantiate the disclosure theorem, following the
spec's worked example with entries for C and M only. -/
def archivesCM : SoulColor → Option String :=
  fun col =>
    match col with
    | SoulColor.C => some ("a")
    | SoulColor.M => some ("b")
    | _ => none

/-- Witness for C4 at soul color C with archives for C and M. -/
theorem patient_swap_disclosure_witness :
    (createPatient SoulColor.C archivesCM).swap_file.soul_color = SoulColor.C ∧
    (createPatient SoulColor.C archivesCM).swap_file.revealed_archive SoulColor.C = some ("a") ∧
    (createPatient SoulColor.C archivesCM).swap_file.revealed_archive SoulColor.M = none ∧
    (createPatient SoulColor.C archivesCM).patient.personality_archives SoulColor.M = some ("b") := by
  have h := patient_swap_disclosure SoulColor.C archivesCM
  refine ⟨h.1, h.2.1, h.2.2.1 SoulColor.M (by decide), ?_⟩
  rw [h.2.2.2]
  rfl

/-- C5: a dice check succeeds exactly when the rolled total reaches the
difficulty (ties succeed); the result exposes the ordered list of all n die
results and the summed total; and the skill_check handler returns roll_total,
check_success and exactly one raw roll whose value is the total. -/
theorem dice_check_semantics (rng : Nat → Nat) (n m k d : Nat) (cfg : GameConfig) :
    (checkSuccess (rollDice rng n m k).total d = true ↔ d ≤ (rollDice rng n m k).total) ∧
    (rollDice rng n m k).rolls.length = n ∧
    (rollDice rng n m k).total = (rollDice rng n m k).rolls.sum + k ∧
    checkSuccess d d = true ∧
    (skillCheck rng cfg d).rolls.length = 1 ∧
    (skillCheck rng cfg d).roll_total = (skillCheck rng cfg d).rolls.sum ∧
    ((skillCheck rng cfg d).check_success = true ↔ d ≤ (skillCheck rng cfg d).roll_total) := by
  refine ⟨by simp [checkSuccess], by simp [rollDice], rfl, by simp [checkSuccess], ?_, ?_, ?_⟩
  · simp [skillCheck, rollDice]
  · simp [skillCheck, rollDice]
  · simp [skillCheck, checkSuccess]

/-- C6: a ghost created with declared soul color c and no CMYK override has
channel c equal to 1 and the other three channels 0, and its HP equals its HP
maximum — the caller-declared maximum, or the column default 10 when none is
declared. -/
theorem ghost_creation_init (c : SoulColor) (hm mm : Option Nat) :
    (createGhost c none hm mm).cmyk c = 1 ∧
    (∀ c', c' ≠ c → (createGhost c none hm mm).cmyk c' = 0) ∧
    (createGhost c none hm mm).hp = (createGhost c none hm mm).hp_max ∧
    (createGhost c none hm mm).hp_max = hm.getD 10 := by
  refine ⟨by simp [createGhost, defaultCmyk], ?_, rfl, rfl⟩
  intro c' h
  simp [createGhost, defaultCmyk, h]

/-- Witness for C6 at soul color C, declared HP maximum 12 and defaulted MP. -/
theorem ghost_creation_init_witness :
    (createGhost SoulColor.C none (some 12) none).cmyk SoulColor.C = 1 ∧
    (createGhost SoulColor.C none (some 12) none).cmyk SoulColor.M = 0 ∧
    (createGhost SoulColor.C none (some 12) none).cmyk SoulColor.Y = 0 ∧
    (createGhost SoulColor.C none (some 12) none).cmyk SoulColor.K = 0 ∧
    (createGhost SoulColor.C none (some 12) none).hp =
      (createGhost SoulColor.C none (some 12) none).hp_max ∧
    (createGhost SoulColor.C none (some 12) none).hp_max = 12 := by
  have h := ghost_creation_init SoulColor.C (some 12) none
  exact ⟨h.1, h.2.1 SoulColor.M (by decide), h.2.1 SoulColor.Y (by decide),
    h.2.1 SoulColor.K (by decide), h.2.2.1, h.2.2.2⟩

/-- C8: start_game succeeds exactly from preparing (moving the game to
active) and fails with InvalidTransition from every other status; end_game
moves any non-ended game to ended, fails with InvalidTransition on an ended
game, and therefore fails when repeated. -/
theorem game_lifecycle (g : GameRec) :
    (g.status = GameStatus.preparing →
      startGame g = .ok { g with status := GameStatus.active }) ∧
    (g.status ≠ GameStatus.preparing →
      startGame g = .error DomainError.invalidTransition) ∧
    (g.status ≠ GameStatus.ended →
      endGame g = .ok { g with status := GameStatus.ended }) ∧
    (g.status = GameStatus.ended →
      endGame g = .error DomainError.invalidTransition) ∧
    (∀ g', endGame g = .ok g' → endGame g' = .error DomainError.invalidTransition) := by
  refine ⟨fun h => by simp [startGame, h], fun h => by simp [startGame, h],
    fun h => by simp [endGame, h], fun h => by simp [endGame, h], fun g' h => ?_⟩
  by_cases hg : g.status = GameStatus.ended
  · simp [endGame, hg] at h
  · simp [endGame, hg] at h
    rw [← h]
    simp [endGame]

/-- Witness for C8 across the four lifecycle cases and a repeated end_game. -/
theorem game_lifecycle_witness :
    startGame { id := 0, status := GameStatus.preparing } =
      .ok { id := 0, status := GameStatus.active } ∧
    startGame { id := 0, status := GameStatus.active } =
      .error DomainError.invalidTransition ∧
    endGame { id := 0, status := GameStatus.active } =
      .ok { id := 0, status := GameStatus.ended } ∧
    endGame { id := 0, status := GameStatus.ended } =
      .error DomainError.invalidTransition ∧
    endGame { id := 0, status := GameStatus.ended } =
      .error DomainError.invalidTransition := by
  refine ⟨(game_lifecycle _).1 rfl, (game_lifecycle _).2.1 (by decide),
    (game_lifecycle _).2.2.1 (by decide), (game_lifecycle _).2.2.2.1 rfl,
    (game_lifecycle { id := 0, status := GameStatus.active }).2.2.2.2
      { id := 0, status := GameStatus.ended } rfl⟩

/-- Folding max over the naturals from s+1 up to s+n yields s+n (or 0 when
the range is empty). -/
theorem foldr_max_range' (s n : Nat) :
    (List.range' (s + 1) n).foldr max 0 = if n = 0 then 0 else s + n := by
  induction n generalizing s with
  | zero => simp
  | succ n ih =>
      rw [List.range'_succ]
      simp only [List.foldr_cons]
      rw [ih (s + 1)]
      by_cases hn : n = 0
      · subst hn
        simp
      · have h1 : n + 1 ≠ 0 := by omega
        rw [if_neg hn, if_neg h1]
        omega

/-- Folding max over 1..n yields n. -/
theorem foldr_max_range_one (n : Nat) : (List.range' 1 n).foldr max 0 = n := by
  have h := foldr_max_range' 0 n
  rw [Nat.zero_add] at h
  rw [h]
  by_cases hn : n = 0
  · simp [hn]
  · simp [hn]

/-- The range s..s+n-1 steps by exactly one between neighbours. -/
theorem chain'_consec_range' (s n : Nat) :
    List.Chain' (fun a b => b = a + 1) (List.range' s n) := by
  induction n generalizing s with
  | zero => simp
  | succ n ih =>
      rw [List.range'_succ]
      apply List.Chain'.cons'
      · exact ih (s + 1)
      · intro y hy
        cases n with
        | zero => simp [List.range'] at hy
        | succ m =>
            rw [List.range'_succ] at hy
            simp only [List.head?_cons, Option.mem_def, Option.some.injEq] at hy
            omega

/-- Appending a dispatched event extends exactly its own session's sequence
list, with the sequence number maxSeq + 1. -/
theorem sessionSeqs_append (tl : List TEvent) (sid gid : Nat) (ty : String) (sid' : Nat) :
    sessionSeqs (appendEvent tl sid gid ty) sid' =
      if sid' = sid then sessionSeqs tl sid' ++ [maxSeq tl sid + 1]
      else sessionSeqs tl sid' := by
  by_cases h : sid' = sid
  · subst h
    simp [sessionSeqs, appendEvent, List.filter_append, List.filter_cons]
  · have hb : (sid == sid') = false := beq_eq_false_iff_ne.mpr (fun hc => h hc.symm)
    simp [sessionSeqs, appendEvent, List.filter_append, List.filter_cons, hb, h]

/-- On every reachable ledger, each session's sequence list is exactly
1, 2, ..., k in order. -/
theorem sessionSeqs_reachable {tl : List TEvent} (h : TimelineReachable tl) (sid : Nat) :
    sessionSeqs tl sid = List.range' 1 (sessionSeqs tl sid).length := by
  induction h with
  | nil => simp [sessionSeqs]
  | append tl' sid' gid ty _ ih =>
      rw [sessionSeqs_append]
      by_cases hs : sid = sid'
      · rw [if_pos hs]
        subst hs
        obtain ⟨n, hn⟩ : ∃ n, sessionSeqs tl' sid = List.range' 1 n := ⟨_, ih⟩
        have hmax : maxSeq tl' sid = n := by
          unfold maxSeq
          rw [hn, foldr_max_range_one]
        rw [hn, hmax]
        have hcat := @List.range'_concat 1 1 n
        rw [Nat.one_mul, Nat.add_comm 1 n] at hcat
        rw [← hcat]
        simp [List.length_range']
      · rw [if_neg hs]
        exact ih

/-- C2: on every ledger reachable by dispatching events, each session's
recorded sequence numbers are exactly 1..k in order — so they are strictly
increasing, consecutive (each neighbour one more than the last) and distinct. -/
theorem timeline_seq_consecutive {tl : List TEvent} (h : TimelineReachable tl) (sid : Nat) :
    sessionSeqs tl sid = List.range' 1 (sessionSeqs tl sid).length ∧
    List.Chain' (fun a b => b = a + 1) (sessionSeqs tl sid) ∧
    (sessionSeqs tl sid).Pairwise (fun a b => a < b) ∧
    (sessionSeqs tl sid).Nodup := by
  have hmain := sessionSeqs_reachable h sid
  have hpw : (sessionSeqs tl sid).Pairwise (fun a b => a < b) := by
    rw [hmain]
    exact List.pairwise_lt_range' 1 _
  refine ⟨hmain, ?_, hpw, ?_⟩
  · rw [hmain]
    exact chain'_consec_range' 1 _
  · exact hpw.imp Nat.ne_of_lt

/-- Example ledger: three dispatched events, two in session 0 and one in
session 1. -/
def tlExample : List TEvent :=
  appendEvent (appendEvent (appendEvent [] 0 7 ("session_start")) 0 7 ("skill_check"))
    1 7 ("attack")

/-- The example ledger is reachable. -/
theorem tlExample_reachable : TimelineReachable tlExample :=
  TimelineReachable.append _ _ _ _
    (TimelineReachable.append _ _ _ _
      (TimelineReachable.append _ _ _ _ TimelineReachable.nil))

/-- Witness for C2 on a concrete three-event ledger. -/
theorem timeline_seq_consecutive_witness :
    sessionSeqs tlExample 0 = List.range' 1 (sessionSeqs tlExample 0).length ∧
    List.Chain' (fun a b => b = a + 1) (sessionSeqs tlExample 0) ∧
    (sessionSeqs tlExample 0).Pairwise (fun a b => a < b) ∧
    (sessionSeqs tlExample 0).Nodup :=
  timeline_seq_consecutive tlExample_reachable 0

/-- Inversion of a successful start_session: the conflict predicate was
false, the new active session was appended, and the auto-joined patients
were appended to the roster. -/
theorem startSession_inv {st st' : SMState} {gid : Nat} {r l : Option Nat}
    (h : startSession st gid r l = .ok st') :
    conflictExists st r l = false ∧
    st'.sessions = st.sessions ++ [⟨st.next_id, gid, r, l, SessionStatus.active⟩] ∧
    st'.session_players = st.session_players ++
      (st.patients.filter (fun p => autoJoins p r l)).map (fun p => ⟨st.next_id, p.id⟩) := by
  unfold startSession at h
  cases hc : conflictExists st r l with
  | true =>
      rw [hc] at h
      simp at h
  | false =>
      rw [hc] at h
      simp only [Bool.false_eq_true, if_false, Except.ok.injEq] at h
      exact ⟨rfl, by rw [← h], by rw [← h]⟩

/-- C1 (amended): while a session S1 at location L is active, a second
start_session at L fails with Conflict; but a paused S1 does not hold the
scope — whenever no active session overlaps the requested scope, even though
a paused session sits at that very location, a second start_session at L
succeeds; and after end_session of the sole conflicting session, a
start_session at L succeeds. -/
theorem start_session_location_exclusion (st : SMState) (gid r l : Nat) :
    ((∃ s ∈ st.sessions, s.status = SessionStatus.active ∧ s.location_id = some l) →
      startSession st gid (some r) (some l) = .error DomainError.conflict) ∧
    ((∀ s ∈ st.sessions, scopeOverlaps s (some r) (some l) = true →
        s.status ≠ SessionStatus.active) →
      (startSession st gid (some r) (some l)).isOk = true) ∧
    (∀ sid st', endSession st sid = .ok st' →
      (∀ s ∈ st.sessions, conflictsWith s (some r) (some l) = true → s.id = sid) →
      (startSession st' gid (some r) (some l)).isOk = true) := by
  refine ⟨?_, ?_, ?_⟩
  · rintro ⟨s, hmem, hact, hloc⟩
    have hc : conflictExists st (some r) (some l) = true := by
      rw [conflictExists, List.any_eq_true]
      refine ⟨s, hmem, ?_⟩
      simp [conflictsWith, scopeOverlaps, hact, hloc]
    simp [startSession, hc]
  · intro hno
    have hc : conflictExists st (some r) (some l) = false := by
      rw [conflictExists, List.any_eq_false]
      intro s hmem hcw
      rw [conflictsWith, Bool.and_eq_true] at hcw
      exact hno s hmem hcw.2 (by simpa using hcw.1)
    simp [startSession, hc, Except.isOk, Except.toBool]
  · intro sid st' hend honly
    unfold endSession at hend
    cases hf : findSession st sid with
    | none =>
        rw [hf] at hend
        simp at hend
    | some s =>
        rw [hf] at hend
        by_cases hstat : s.status = SessionStatus.ended
        · simp [hstat] at hend
        · have hb : (s.status == SessionStatus.ended) = false := by simpa using hstat
          simp only [hb, Bool.false_eq_true, if_false, Except.ok.injEq] at hend
          subst hend
          have hc' : conflictExists (setStatus st sid SessionStatus.ended)
              (some r) (some l) = false := by
            rw [conflictExists, List.any_eq_false]
            intro t ht htc
            simp only [setStatus, List.mem_map] at ht
            obtain ⟨u, hu, hfu⟩ := ht
            by_cases hid : u.id = sid
            · rw [← hfu] at htc
              simp [conflictsWith, hid] at htc
            · have hbid : (u.id == sid) = false := by simpa using hid
              rw [← hfu] at htc
              simp only [hbid, Bool.false_eq_true, if_false] at htc
              exact hid (honly u hu htc)
          simp [startSession, hc', Except.isOk, Except.toBool]

/-- Empty session-manager state. -/
def smEmpty : SMState :=
  { sessions := [], patients := [], session_players := [], next_id := 0 }

/-- One active session (id 0) at region 0, location 0. -/
def smOneActive : SMState :=
  { sessions := [⟨0, 0, some 0, some 0, SessionStatus.active⟩],
    patients := [], session_players := [], next_id := 1 }

/-- One paused session (id 0) at region 0, location 0. -/
def smOnePaused : SMState :=
  { sessions := [⟨0, 0, some 0, some 0, SessionStatus.paused⟩],
    patients := [], session_players := [], next_id := 1 }

/-- One ended session (id 0) at region 0, location 0. -/
def smOneEnded : SMState :=
  { sessions := [⟨0, 0, some 0, some 0, SessionStatus.ended⟩],
    patients := [], session_players := [], next_id := 1 }

/-- Session 0 paused and session 1 active, both at region 0, location 0. -/
def smTwo : SMState :=
  { sessions := [⟨0, 0, some 0, some 0, SessionStatus.paused⟩,
                 ⟨1, 0, some 0, some 0, SessionStatus.active⟩],
    patients := [], session_players := [], next_id := 2 }

/-- Sessions 0 and 1 both paused at region 0, location 0. -/
def smTwoPaused : SMState :=
  { sessions := [⟨0, 0, some 0, some 0, SessionStatus.paused⟩,
                 ⟨1, 0, some 0, some 0, SessionStatus.paused⟩],
    patients := [], session_players := [], next_id := 2 }

/-- Witness for C1 (amended): an active session at location 0 blocks a second
start there; a paused one does not; after ending the active session a new
start succeeds. -/
theorem start_session_location_exclusion_witness :
    startSession smOneActive 0 (some 0) (some 0) = .error DomainError.conflict ∧
    (startSession smOnePaused 0 (some 0) (some 0)).isOk = true ∧
    (startSession smOneEnded 0 (some 0) (some 0)).isOk = true := by
  refine ⟨(start_session_location_exclusion smOneActive 0 0 0).1
      ⟨⟨0, 0, some 0, some 0, SessionStatus.active⟩, by decide, rfl, rfl⟩,
    (start_session_location_exclusion smOnePaused 0 0 0).2.1 (by decide),
    (start_session_location_exclusion smOneActive 0 0 0).2.2 0 smOneEnded rfl (by decide)⟩

/-- Counterexample to C1 as stated: session 0 is started at location 0, then
paused; the claim requires a second start_session at location 0 to fail with
Conflict while session 0 is paused, yet it succeeds — the paused session does
not hold its scope against start_session. -/
theorem start_paused_occupant_counterexample :
    startSession smEmpty 0 (some 0) (some 0) = .ok smOneActive ∧
    pauseSession smOneActive 0 = .ok smOnePaused ∧
    findSession smOnePaused 0 = some ⟨0, 0, some 0, some 0, SessionStatus.paused⟩ ∧
    startSession smOnePaused 0 (some 0) (some 0) = .ok smTwo ∧
    startSession smOnePaused 0 (some 0) (some 0) ≠ .error DomainError.conflict := by
  have e : startSession smOnePaused 0 (some 0) (some 0) = .ok smTwo := rfl
  exact ⟨rfl, rfl, rfl, e, fun h => Except.noConfusion (e.symm.trans h)⟩

/-- C3 (amended): resume of a paused session re-evaluates the conflict
predicate against active sessions only — when another active session
occupies its scope, resume fails with Conflict and no transition happens;
when no active session overlaps its scope, even if a paused one does, resume
succeeds and the session's status becomes active. -/
theorem resume_conflict_recheck (st : SMState) (sid : Nat) (s : Sess)
    (hf : findSession st sid = some s) (hp : s.status = SessionStatus.paused) :
    ((∃ s2 ∈ st.sessions, conflictsWith s2 s.region_id s.location_id = true) →
      resumeSession st sid = .error DomainError.conflict) ∧
    ((∀ s2 ∈ st.sessions, s2.status = SessionStatus.active →
        scopeOverlaps s2 s.region_id s.location_id = false) →
      resumeSession st sid = .ok (setStatus st sid SessionStatus.active) ∧
      ∀ t ∈ (setStatus st sid SessionStatus.active).sessions, t.id = sid →
        t.status = SessionStatus.active) := by
  have hb : (s.status == SessionStatus.paused) = true := by simp [hp]
  constructor
  · rintro ⟨s2, hmem, hcw⟩
    have hc : conflictExists st s.region_id s.location_id = true :=
      List.any_eq_true.mpr ⟨s2, hmem, hcw⟩
    unfold resumeSession
    rw [hf]
    simp [hb, hc]
  · intro hno
    have hc : conflictExists st s.region_id s.location_id = false := by
      rw [conflictExists, List.any_eq_false]
      intro s2 hmem hcw
      rw [conflictsWith, Bool.and_eq_true] at hcw
      have h2 := hno s2 hmem (by simpa using hcw.1)
      rw [hcw.2] at h2
      exact Bool.noConfusion h2
    refine ⟨?_, ?_⟩
    · unfold resumeSession
      rw [hf]
      simp [hb, hc]
    · intro t ht htid
      simp only [setStatus, List.mem_map] at ht
      obtain ⟨u, hu, hfu⟩ := ht
      by_cases hid : u.id = sid
      · rw [← hfu]
        simp [hid]
      · have hbid : (u.id == sid) = false := by simpa using hid
        rw [← hfu] at htid
        simp only [hbid, Bool.false_eq_true, if_false] at htid
        exact absurd htid hid

/-- Witness for C3 (amended): resume of paused session 0 fails with Conflict
while active session 1 holds location 0, and succeeds when only session 0
exists. -/
theorem resume_conflict_recheck_witness :
    resumeSession smTwo 0 = .error DomainError.conflict ∧
    resumeSession smOnePaused 0 = .ok (setStatus smOnePaused 0 SessionStatus.active) := by
  refine ⟨(resume_conflict_recheck smTwo 0 ⟨0, 0, some 0, some 0, SessionStatus.paused⟩
      rfl rfl).1 ⟨⟨1, 0, some 0, some 0, SessionStatus.active⟩, by decide, by decide⟩,
    ((resume_conflict_recheck smOnePaused 0 ⟨0, 0, some 0, some 0, SessionStatus.paused⟩
      rfl rfl).2 (by decide)).1⟩

/-- Counterexample to C3 as stated: sessions 0 and 1 are both paused at
location 0 (session 1 was started while session 0 was paused, then paused in
turn); the claim requires resume of session 0 to fail with Conflict because
session 1 — a session with status paused — occupies its scope, yet the
resume succeeds: only active sessions are re-checked. -/
theorem resume_paused_occupant_counterexample :
    startSession smOnePaused 0 (some 0) (some 0) = .ok smTwo ∧
    pauseSession smTwo 1 = .ok smTwoPaused ∧
    findSession smTwoPaused 1 = some ⟨1, 0, some 0, some 0, SessionStatus.paused⟩ ∧
    resumeSession smTwoPaused 0 = .ok (setStatus smTwoPaused 0 SessionStatus.active) ∧
    resumeSession smTwoPaused 0 ≠ .error DomainError.conflict := by
  have e : resumeSession smTwoPaused 0 = .ok (setStatus smTwoPaused 0 SessionStatus.active) :=
    rfl
  exact ⟨rfl, rfl, rfl, e, fun h => Except.noConfusion (e.symm.trans h)⟩

/-- C7: every successful start_session yields a session in active status with
the requested game and scope among the stored sessions, and every patient
positioned at the session's location (or at its region, for a region-scoped
session) is enrolled as a SessionPlayer of the new session. -/
theorem start_session_autojoin (st : SMState) (gid : Nat) (r l : Option Nat)
    (st' : SMState) (h : startSession st gid r l = .ok st') :
    (⟨st.next_id, gid, r, l, SessionStatus.active⟩ : Sess) ∈ st'.sessions ∧
    ∀ p ∈ st.patients, autoJoins p r l = true →
      (⟨st.next_id, p.id⟩ : SessionPlayerRec) ∈ st'.session_players := by
  obtain ⟨-, hsess, hsp⟩ := startSession_inv h
  constructor
  · rw [hsess]
    exact List.mem_append_right _ (List.mem_singleton.mpr rfl)
  · intro p hp hj
    rw [hsp]
    exact List.mem_append_right _ (List.mem_map_of_mem _ (List.mem_filter.mpr ⟨hp, hj⟩))

/-- State with one patient (id 5) positioned at region 3 and no sessions. -/
def smWithPatient : SMState :=
  { sessions := [], patients := [⟨5, 0, some 3, none⟩],
    session_players := [], next_id := 0 }

/-- State after starting a region-3 session in smWithPatient: the session is
active and patient 5 is auto-enrolled. -/
def smJoined : SMState :=
  { sessions := [⟨0, 9, some 3, none, SessionStatus.active⟩],
    patients := [⟨5, 0, some 3, none⟩],
    session_players := [⟨0, 5⟩], next_id := 1 }

/-- Witness for C7: starting a region-scoped session in a state with a
patient at that region creates an active session and enrols the patient. -/
theorem start_session_autojoin_witness :
    (⟨0, 9, some 3, none, SessionStatus.active⟩ : Sess) ∈ smJoined.sessions ∧
    (⟨0, 5⟩ : SessionPlayerRec) ∈ smJoined.session_players := by
  have h := start_session_autojoin smWithPatient 9 (some 3) none smJoined rfl
  exact ⟨h.1, h.2 ⟨5, 0, some 3, none⟩ (by decide) (by decide)⟩

/-- C9: with the session looked up, pause succeeds exactly from active and
fails with InvalidTransition from any other status (paused or ended), and
resume from any status other than paused fails with InvalidTransition. -/
theorem pause_resume_legality (st : SMState) (sid : Nat) (s : Sess)
    (hf : findSession st sid = some s) :
    (s.status = SessionStatus.active →
      pauseSession st sid = .ok (setStatus st sid SessionStatus.paused)) ∧
    (s.status ≠ SessionStatus.active →
      pauseSession st sid = .error DomainError.invalidTransition) ∧
    (s.status ≠ SessionStatus.paused →
      resumeSession st sid = .error DomainError.invalidTransition) := by
  refine ⟨fun hs => ?_, fun hs => ?_, fun hs => ?_⟩
  · unfold pauseSession
    rw [hf]
    simp [hs]
  · unfold pauseSession
    rw [hf]
    have hsb : (s.status == SessionStatus.active) = false := by simpa using hs
    simp [hsb]
  · unfold resumeSession
    rw [hf]
    have hsb : (s.status == SessionStatus.paused) = false := by simpa using hs
    simp [hsb]

/-- Witness for C9: pause succeeds on an active session, fails on an ended
session, and resume fails on an active session. -/
theorem pause_resume_legality_witness :
    pauseSession smOneActive 0 = .ok (setStatus smOneActive 0 SessionStatus.paused) ∧
    pauseSession smOneEnded 0 = .error DomainError.invalidTransition ∧
    resumeSession smOneActive 0 = .error DomainError.invalidTransition := by
  have h1 := pause_resume_legality smOneActive 0
    ⟨0, 0, some 0, some 0, SessionStatus.active⟩ rfl
  have h2 := pause_resume_legality smOneEnded 0
    ⟨0, 0, some 0, some 0, SessionStatus.ended⟩ rfl
  exact ⟨h1.1 rfl, h2.2.1 (by decide), h1.2.2 (by decide)⟩

/-- C10: the per-game timeline endpoint performs no existence check — every
game id, including one naming no existing game, gets a successful response,
and when the id names no game (with every stored event belonging to an
existing game) the events list is empty — while the per-session timeline
endpoint returns a 404 error for an unknown session id. -/
theorem timeline_endpoint_existence (db : BotDB) (gid sid limit offset : Nat) :
    (getGameTimelineApi db gid limit offset).isOk = true ∧
    ((∀ e ∈ db.events, ∃ g ∈ db.games, g.id = e.game_id) →
      (∀ g ∈ db.games, g.id ≠ gid) →
      getGameTimelineApi db gid limit offset = .ok { subject_id := gid, events := [] }) ∧
    ((∀ s ∈ db.sessions, s.id ≠ sid) →
      getSessionTimelineApi db sid limit offset = .error 404) := by
  refine ⟨rfl, fun hfk hno => ?_, fun hns => ?_⟩
  · have hnil : db.events.filter (fun e => e.game_id == gid) = [] := by
      rw [List.filter_eq_nil_iff]
      intro e he hbe
      obtain ⟨g, hg, hgid⟩ := hfk e he
      rw [beq_iff_eq] at hbe
      exact hno g hg (hgid.trans hbe)
    simp [getGameTimelineApi, getGameTimelineEvents, hnil]
  · have hfind : db.sessions.find? (fun s => s.id == sid) = none := by
      rw [List.find?_eq_none]
      intro s hs
      simpa using hns s hs
    simp [getSessionTimelineApi, hfind]

/-- Database with one game (id 0), one session (id 0) and one event, used to
instantiate the endpoint theorem at the unknown id 1. -/
def dbExample : BotDB :=
  { games := [⟨0, GameStatus.active⟩],
    sessions := [⟨0, 0, none, none, SessionStatus.active⟩],
    events := [⟨0, 0, ("session_start"), 1⟩] }

/-- Witness for C10 at the unknown id 1 with the endpoints' default
pagination (limit 100 / limit 50, offset 0). -/
theorem timeline_endpoint_existence_witness :
    (getGameTimelineApi dbExample 1 100 0).isOk = true ∧
    getGameTimelineApi dbExample 1 100 0 = .ok { subject_id := 1, events := [] } ∧
    getSessionTimelineApi dbExample 1 50 0 = .error 404 := by
  have h1 := timeline_endpoint_existence dbExample 1 1 100 0
  have h2 := timeline_endpoint_existence dbExample 1 1 50 0
  exact ⟨h1.1, h1.2.1 (by decide) (by decide), h2.2.2 (by decide)⟩

end DgCore
